import Mathlib

/-!
Verification of the prompt-builder CRUD actions (src/actions module and
src/db/tables.ts) against their specification.

Modelling choices, from the source:

* The three astro:db tables (PromptCollections, PromptTemplates,
  PromptVariables) become Lean structures; a `Store` is the database state,
  one list per table.  `id` columns are declared `primaryKey` in
  src/db/tables.ts, so theorems that need uniqueness of ids take a `Nodup`
  hypothesis on the id column.
* Dates are modelled as `Nat` (the code only ever stores `new Date()` /
  `NOW`), and `crypto.randomUUID()` / `new Date()` nondeterminism is made
  explicit: handlers that use them take `newId` / `now` parameters.
* The authenticated caller (`context.locals.user`) is an `Option String`
  holding the user id; `requireUser` mirrors the helper of the same name.
* zod input schemas become input structures; `z.string().optional()` is
  `Option String` (zod rejects `null`, so absence is the only non-string
  case), and each schema's constraints (`.min(1)`, `.refine(...)`) become a
  boolean `valid` predicate.  Astro actions run input validation before the
  handler, so every handler first checks `valid` and fails with
  `VALIDATION`, before `requireUser` and before any query.
* Every handler returns a `Res`: the payload or `ActionError` code, the
  store after the call, and how many SQL statements (select / insert /
  update / delete) were issued before returning.  A drizzle
  `update ... where ... returning()` becomes: map the set-clause over the
  rows matching the `where`, and return the first affected row (`find?`);
  `delete ... where` becomes a filter, with `rowsAffected` the number of
  matching rows; `insert ... values ... returning()` appends the new row.
-/

/-- A row of the PromptCollections table. -/
structure Collection where
  id : String
  userId : String
  name : String
  description : Option String
  icon : Option String
  isDefault : Bool
  createdAt : Nat
  updatedAt : Nat
deriving Repr, DecidableEq

/-- A row of the PromptTemplates table. -/
structure Template where
  id : String
  collectionId : Option String
  userId : String
  name : String
  description : Option String
  modelHint : Option String
  promptBody : String
  tags : Option String
  isFavorite : Bool
  isSystem : Bool
  createdAt : Nat
  updatedAt : Nat
deriving Repr, DecidableEq

/-- A row of the PromptVariables table. -/
structure Variable where
  id : String
  templateId : String
  name : String
  label : Option String
  description : Option String
  inputType : Option String
  defaultValue : Option String
  optionsJson : Option String
  orderIndex : Option Int
  createdAt : Nat
deriving Repr, DecidableEq

/-- The database state: one list of rows per table, named after the tables
declared in src/db/tables.ts. -/
structure Store where
  promptCollections : List Collection
  promptTemplates : List Template
  promptVariables : List Variable
deriving Repr, DecidableEq

/-- ActionError codes raised by the handlers (plus VALIDATION for a zod
input-schema failure, which astro actions reports before the handler runs). -/
inductive ErrCode where
  | UNAUTHORIZED
  | NOT_FOUND
  | FORBIDDEN
  | VALIDATION
deriving Repr, DecidableEq

/-- Result of one action call: payload or error code, the store after the
call, and the number of SQL statements issued before returning. -/
inductive Res (α : Type) where
  | ok (val : α) (store : Store) (queries : Nat)
  | err (code : ErrCode) (store : Store) (queries : Nat)
deriving Repr, DecidableEq

/-- requireUser: extract the authenticated user id or fail UNAUTHORIZED. -/
def requireUser (user : Option String) : Except ErrCode String :=
  match user with
  | none => .error .UNAUTHORIZED
  | some u => .ok u

/-- getOwnedCollection: select the collection matching id AND userId
(one select statement); NOT_FOUND if no row matches. -/
def getOwnedCollection (s : Store) (collectionId userId : String) :
    Except ErrCode Collection :=
  match s.promptCollections.find? (fun c => c.id == collectionId && c.userId == userId) with
  | none => .error .NOT_FOUND
  | some c => .ok c

/-- getOwnedTemplate: select the template matching the id alone (one select
statement); NOT_FOUND if absent, FORBIDDEN if its userId differs from the
caller. -/
def getOwnedTemplate (s : Store) (templateId userId : String) :
    Except ErrCode Template :=
  match s.promptTemplates.find? (fun t => t.id == templateId) with
  | none => .error .NOT_FOUND
  | some t => if t.userId != userId then .error .FORBIDDEN else .ok t

/-- Input of createCollection (zod: name min 1; rest optional). -/
structure CreateCollectionInput where
  name : String
  description : Option String
  icon : Option String
  isDefault : Option Bool
deriving Repr, DecidableEq

def CreateCollectionInput.valid (i : CreateCollectionInput) : Bool :=
  1 ≤ i.name.length

/-- createCollection handler. -/
def createCollection (user : Option String) (inp : CreateCollectionInput)
    (newId : String) (now : Nat) (s : Store) : Res Collection :=
  if ¬ inp.valid then .err .VALIDATION s 0 else
  match requireUser user with
  | .error e => .err e s 0
  | .ok uid =>
    let row : Collection :=
      { id := newId, userId := uid, name := inp.name,
        description := inp.description, icon := inp.icon,
        isDefault := inp.isDefault.getD false,
        createdAt := now, updatedAt := now }
    .ok row { s with promptCollections := s.promptCollections ++ [row] } 1

/-- Input of updateCollection (zod: id min 1, name min 1 when present,
refine: at least one optional field present). -/
structure UpdateCollectionInput where
  id : String
  name : Option String
  description : Option String
  icon : Option String
  isDefault : Option Bool
deriving Repr, DecidableEq

def UpdateCollectionInput.valid (i : UpdateCollectionInput) : Bool :=
  1 ≤ i.id.length &&
  (match i.name with | some n => 1 ≤ n.length | none => true) &&
  (i.name.isSome || i.description.isSome || i.icon.isSome || i.isDefault.isSome)

/-- The set-clause of updateCollection: only present fields are written,
updatedAt is always refreshed. -/
def applyCollectionSet (inp : UpdateCollectionInput) (now : Nat)
    (c : Collection) : Collection :=
  { c with
    name := match inp.name with | some n => n | none => c.name
    description := match inp.description with | some d => some d | none => c.description
    icon := match inp.icon with | some i => some i | none => c.icon
    isDefault := match inp.isDefault with | some b => b | none => c.isDefault
    updatedAt := now }

/-- updateCollection handler: validate, authenticate, getOwnedCollection,
then update where id = input.id, returning the first affected row. -/
def updateCollection (user : Option String) (inp : UpdateCollectionInput)
    (now : Nat) (s : Store) : Res (Option Collection) :=
  if ¬ inp.valid then .err .VALIDATION s 0 else
  match requireUser user with
  | .error e => .err e s 0
  | .ok uid =>
    match getOwnedCollection s inp.id uid with
    | .error e => .err e s 1
    | .ok _ =>
      let newRows := s.promptCollections.map
        (fun c => if c.id == inp.id then applyCollectionSet inp now c else c)
      .ok (newRows.find? (fun c => c.id == inp.id))
        { s with promptCollections := newRows } 2

/-- listCollections handler: one select of the caller's rows. -/
def listCollections (user : Option String) (s : Store) :
    Res (List Collection × Nat) :=
  match requireUser user with
  | .error e => .err e s 0
  | .ok uid =>
    let items := s.promptCollections.filter (fun c => c.userId == uid)
    .ok (items, items.length) s 1

/-- Input of createTemplate (zod: name min 1, promptBody min 1; the other
fields, including collectionId, are plain optional strings with no minimum
length). -/
structure CreateTemplateInput where
  collectionId : Option String
  name : String
  description : Option String
  modelHint : Option String
  promptBody : String
  tags : Option String
  isFavorite : Option Bool
deriving Repr, DecidableEq

def CreateTemplateInput.valid (i : CreateTemplateInput) : Bool :=
  1 ≤ i.name.length && 1 ≤ i.promptBody.length

/-- createTemplate handler.  The ownership check is guarded by JavaScript
truthiness —  `if (input.collectionId)` —  so it runs only when collectionId
is present AND non-empty (the empty string is falsy); the inserted row still
stores `input.collectionId ?? null`, i.e. whatever string was given. -/
def createTemplate (user : Option String) (inp : CreateTemplateInput)
    (newId : String) (now : Nat) (s : Store) : Res Template :=
  if ¬ inp.valid then .err .VALIDATION s 0 else
  match requireUser user with
  | .error e => .err e s 0
  | .ok uid =>
    let truthyCollectionId : Bool :=
      match inp.collectionId with
      | some cid => cid != ""
      | none => false
    let check : Except ErrCode Unit :=
      if truthyCollectionId then
        match inp.collectionId with
        | some cid => (getOwnedCollection s cid uid).map (fun _ => ())
        | none => .ok ()
      else .ok ()
    let checkQ : Nat := if truthyCollectionId then 1 else 0
    match check with
    | .error e => .err e s checkQ
    | .ok _ =>
      let row : Template :=
        { id := newId, collectionId := inp.collectionId, userId := uid,
          name := inp.name, description := inp.description,
          modelHint := inp.modelHint, promptBody := inp.promptBody,
          tags := inp.tags, isFavorite := inp.isFavorite.getD false,
          isSystem := false, createdAt := now, updatedAt := now }
      .ok row { s with promptTemplates := s.promptTemplates ++ [row] } (checkQ + 1)

/-- Input of updateTemplate (zod: id min 1; all seven updatable fields are
plain optional; refine: at least one of the seven present). -/
structure UpdateTemplateInput where
  id : String
  collectionId : Option String
  name : Option String
  description : Option String
  modelHint : Option String
  promptBody : Option String
  tags : Option String
  isFavorite : Option Bool
deriving Repr, DecidableEq

def UpdateTemplateInput.valid (i : UpdateTemplateInput) : Bool :=
  1 ≤ i.id.length &&
  (i.collectionId.isSome || i.name.isSome || i.description.isSome ||
   i.modelHint.isSome || i.promptBody.isSome || i.tags.isSome ||
   i.isFavorite.isSome)

/-- The set-clause of updateTemplate: only present fields are written,
updatedAt is always refreshed; isSystem, id, userId, createdAt are never in
the set-clause. -/
def applyTemplateSet (inp : UpdateTemplateInput) (now : Nat)
    (t : Template) : Template :=
  { t with
    collectionId := match inp.collectionId with | some c => some c | none => t.collectionId
    name := match inp.name with | some n => n | none => t.name
    description := match inp.description with | some d => some d | none => t.description
    modelHint := match inp.modelHint with | some m => m | none => t.modelHint
    promptBody := match inp.promptBody with | some b => b | none => t.promptBody
    tags := match inp.tags with | some x => some x | none => t.tags
    isFavorite := match inp.isFavorite with | some f => f | none => t.isFavorite
    updatedAt := now }

/-- updateTemplate handler.  The guard on the extra collection check is
`input.collectionId !== undefined && input.collectionId !== null`; zod's
`z.string().optional()` excludes null, so in the model the check runs
exactly when collectionId is present. -/
def updateTemplate (user : Option String) (inp : UpdateTemplateInput)
    (now : Nat) (s : Store) : Res (Option Template) :=
  if ¬ inp.valid then .err .VALIDATION s 0 else
  match requireUser user with
  | .error e => .err e s 0
  | .ok uid =>
    match getOwnedTemplate s inp.id uid with
    | .error e => .err e s 1
    | .ok _ =>
      let collCheck : Except ErrCode Unit :=
        match inp.collectionId with
        | some cid => (getOwnedCollection s cid uid).map (fun _ => ())
        | none => .ok ()
      let checkQ : Nat := match inp.collectionId with | some _ => 1 | none => 0
      match collCheck with
      | .error e => .err e s (1 + checkQ)
      | .ok _ =>
        let newRows := s.promptTemplates.map
          (fun t => if t.id == inp.id then applyTemplateSet inp now t else t)
        .ok (newRows.find? (fun t => t.id == inp.id))
          { s with promptTemplates := newRows } (2 + checkQ)

/-- listTemplates handler.  The input is `z.object({favoritesOnly:
z.boolean().default(false)}).optional()`; after zod defaulting the handler
sees `input?.favoritesOnly ?? false`, modelled as `Option Bool` with `getD
false`.  The drizzle filter array [eq userId, (eq isFavorite true)?] under
`and(...)` is the conjunction below. -/
def listTemplates (user : Option String) (inp : Option Bool) (s : Store) :
    Res (List Template × Nat) :=
  match requireUser user with
  | .error e => .err e s 0
  | .ok uid =>
    let favoritesOnly := inp.getD false
    let items := s.promptTemplates.filter
      (fun t => t.userId == uid && (!favoritesOnly || t.isFavorite == true))
    .ok (items, items.length) s 1

/-- Input of createPromptVariable (zod: templateId min 1, name min 1; the
rest optional, orderIndex an integer). -/
structure CreateVariableInput where
  templateId : String
  name : String
  label : Option String
  description : Option String
  inputType : Option String
  defaultValue : Option String
  optionsJson : Option String
  orderIndex : Option Int
deriving Repr, DecidableEq

def CreateVariableInput.valid (i : CreateVariableInput) : Bool :=
  1 ≤ i.templateId.length && 1 ≤ i.name.length

/-- createPromptVariable handler: resolve template ownership, then insert. -/
def createPromptVariable (user : Option String) (inp : CreateVariableInput)
    (newId : String) (now : Nat) (s : Store) : Res Variable :=
  if ¬ inp.valid then .err .VALIDATION s 0 else
  match requireUser user with
  | .error e => .err e s 0
  | .ok uid =>
    match getOwnedTemplate s inp.templateId uid with
    | .error e => .err e s 1
    | .ok _ =>
      let row : Variable :=
        { id := newId, templateId := inp.templateId, name := inp.name,
          label := inp.label, description := inp.description,
          inputType := inp.inputType, defaultValue := inp.defaultValue,
          optionsJson := inp.optionsJson, orderIndex := inp.orderIndex,
          createdAt := now }
      .ok row { s with promptVariables := s.promptVariables ++ [row] } 2

/-- Input of updatePromptVariable (zod: id min 1, templateId min 1; refine:
at least one of the seven optional fields present). -/
structure UpdateVariableInput where
  id : String
  templateId : String
  name : Option String
  label : Option String
  description : Option String
  inputType : Option String
  defaultValue : Option String
  optionsJson : Option String
  orderIndex : Option Int
deriving Repr, DecidableEq

def UpdateVariableInput.valid (i : UpdateVariableInput) : Bool :=
  1 ≤ i.id.length && 1 ≤ i.templateId.length &&
  (i.name.isSome || i.label.isSome || i.description.isSome ||
   i.inputType.isSome || i.defaultValue.isSome || i.optionsJson.isSome ||
   i.orderIndex.isSome)

/-- The set-clause of updatePromptVariable: only present fields are written;
there is no updatedAt column, and id, templateId, createdAt are never in the
set-clause. -/
def applyVariableSet (inp : UpdateVariableInput) (v : Variable) : Variable :=
  { v with
    name := match inp.name with | some n => n | none => v.name
    label := match inp.label with | some x => some x | none => v.label
    description := match inp.description with | some d => some d | none => v.description
    inputType := match inp.inputType with | some x => some x | none => v.inputType
    defaultValue := match inp.defaultValue with | some x => some x | none => v.defaultValue
    optionsJson := match inp.optionsJson with | some x => some x | none => v.optionsJson
    orderIndex := match inp.orderIndex with | some x => some x | none => v.orderIndex }

/-- updatePromptVariable handler: resolve template ownership, select the
existing row by (id AND templateId) —  NOT_FOUND if absent —  then update
where id = input.id alone (as in the source), returning the first affected
row. -/
def updatePromptVariable (user : Option String) (inp : UpdateVariableInput)
    (s : Store) : Res (Option Variable) :=
  if ¬ inp.valid then .err .VALIDATION s 0 else
  match requireUser user with
  | .error e => .err e s 0
  | .ok uid =>
    match getOwnedTemplate s inp.templateId uid with
    | .error e => .err e s 1
    | .ok _ =>
      match s.promptVariables.find?
          (fun v => v.id == inp.id && v.templateId == inp.templateId) with
      | none => .err .NOT_FOUND s 2
      | some _ =>
        let newRows := s.promptVariables.map
          (fun v => if v.id == inp.id then applyVariableSet inp v else v)
        .ok (newRows.find? (fun v => v.id == inp.id))
          { s with promptVariables := newRows } 3

/-- Input of deletePromptVariable (zod: id min 1, templateId min 1). -/
structure DeleteVariableInput where
  id : String
  templateId : String
deriving Repr, DecidableEq

def DeleteVariableInput.valid (i : DeleteVariableInput) : Bool :=
  1 ≤ i.id.length && 1 ≤ i.templateId.length

/-- deletePromptVariable handler: resolve template ownership, delete rows
matching (id AND templateId), then fail NOT_FOUND if rowsAffected = 0. -/
def deletePromptVariable (user : Option String) (inp : DeleteVariableInput)
    (s : Store) : Res Unit :=
  if ¬ inp.valid then .err .VALIDATION s 0 else
  match requireUser user with
  | .error e => .err e s 0
  | .ok uid =>
    match getOwnedTemplate s inp.templateId uid with
    | .error e => .err e s 1
    | .ok _ =>
      let rowsAffected := (s.promptVariables.filter
        (fun v => v.id == inp.id && v.templateId == inp.templateId)).length
      let remaining := s.promptVariables.filter
        (fun v => !(v.id == inp.id && v.templateId == inp.templateId))
      if rowsAffected == 0 then .err .NOT_FOUND { s with promptVariables := remaining } 2
      else .ok () { s with promptVariables := remaining } 2

/-- listPromptVariables handler: resolve template ownership, then select the
template's variables. -/
def listPromptVariables (user : Option String) (templateId : String)
    (s : Store) : Res (List Variable × Nat) :=
  if ¬ (1 ≤ templateId.length) then .err .VALIDATION s 0 else
  match requireUser user with
  | .error e => .err e s 0
  | .ok uid =>
    match getOwnedTemplate s templateId uid with
    | .error e => .err e s 1
    | .ok _ =>
      let items := s.promptVariables.filter (fun v => v.templateId == templateId)
      .ok (items, items.length) s 2

/-! Concrete rows, stores and inputs used to instantiate the theorems. -/

def sampleCollection : Collection :=
  { id := "c1", userId := "alice", name := "Coding", description := none,
    icon := none, isDefault := false, createdAt := 0, updatedAt := 0 }

def sampleTemplate : Template :=
  { id := "t1", collectionId := some "c1", userId := "alice", name := "Explain",
    description := none, modelHint := none, promptBody := "Explain a topic",
    tags := none, isFavorite := false, isSystem := false,
    createdAt := 0, updatedAt := 0 }

def sampleVariable : Variable :=
  { id := "v1", templateId := "t1", name := "topic", label := none,
    description := none, inputType := none, defaultValue := none,
    optionsJson := none, orderIndex := none, createdAt := 0 }

def sampleStore : Store :=
  { promptCollections := [sampleCollection],
    promptTemplates := [sampleTemplate],
    promptVariables := [sampleVariable] }

def emptyStore : Store :=
  { promptCollections := [], promptTemplates := [], promptVariables := [] }

/-- createTemplate input with an empty-string collectionId: given but falsy
in JavaScript. -/
def c3badInput : CreateTemplateInput :=
  { collectionId := some "", name := "n", description := none,
    modelHint := none, promptBody := "p", tags := none, isFavorite := none }

/-- createTemplate input with a non-empty collectionId. -/
def c3okInput : CreateTemplateInput :=
  { collectionId := some "c1", name := "X", description := none,
    modelHint := none, promptBody := "Y", tags := none, isFavorite := none }

/-- The collection row of the sample store after renaming at time 9. -/
def c5row : Collection :=
  { id := "c1", userId := "alice", name := "Renamed", description := none,
    icon := none, isDefault := false, createdAt := 0, updatedAt := 9 }

/-- The variable row of the sample store after renaming. -/
def c9row : Variable :=
  { id := "v1", templateId := "t1", name := "topic2", label := none,
    description := none, inputType := none, defaultValue := none,
    optionsJson := none, orderIndex := none, createdAt := 0 }

/-- updateTemplate input pointing at a nonexistent collection. -/
def c10failInput : UpdateTemplateInput :=
  { id := "t1", collectionId := some "c9", name := none, description := none,
    modelHint := none, promptBody := none, tags := none, isFavorite := none }

/-- updateTemplate input moving the template into collection c1. -/
def c10okInput : UpdateTemplateInput :=
  { id := "t1", collectionId := some "c1", name := none, description := none,
    modelHint := none, promptBody := none, tags := none, isFavorite := none }

/-- The template row of the sample store after applying c10okInput at time 6. -/
def c10row : Template :=
  { id := "t1", collectionId := some "c1", userId := "alice", name := "Explain",
    description := none, modelHint := none, promptBody := "Explain a topic",
    tags := none, isFavorite := false, isSystem := false, createdAt := 0,
    updatedAt := 6 }

def c10store : Store := { sampleStore with promptTemplates := [c10row] }

/-! Helper lemmas about keyed lookup in duplicate-free tables, and inversion
of the two ownership resolvers. -/

/-- In a list whose `key` column is duplicate-free, `find?` on the key of a
member returns exactly that member. -/
theorem find_key_eq {α : Type} (key : α → String) {l : List α} {a : α}
    {k : String} (hnd : (l.map key).Nodup) (ha : a ∈ l) (hk : key a = k) :
    l.find? (fun x => key x == k) = some a := by
  induction l with
  | nil => cases ha
  | cons b rest ih =>
    rw [List.map_cons, List.nodup_cons] at hnd
    rcases List.mem_cons.mp ha with rfl | hmem
    · exact List.find?_cons_of_pos _ (by simp [hk])
    · have hbk : ¬ ((key b == k) = true) := by
        simp only [beq_iff_eq]
        intro hbk2
        exact hnd.1 (by rw [hbk2, ← hk]; exact List.mem_map.mpr ⟨a, hmem, rfl⟩)
      have hstep : List.find? (fun x => key x == k) (b :: rest) =
          List.find? (fun x => key x == k) rest :=
        List.find?_cons_of_neg rest hbk
      rw [hstep]
      exact ih hnd.2 hmem

/-- Mapping a key-preserving row transformation over a table leaves the key
column unchanged. -/
theorem map_map_key {α : Type} (key : α → String) (f : α → α)
    (hf : ∀ a, key (f a) = key a) (l : List α) :
    (l.map f).map key = l.map key := by
  induction l with
  | nil => rfl
  | cons b rest ih => simp [hf, ih]

/-- Inversion of a successful getOwnedCollection: the returned row is in the
table and matches both the requested id and the caller. -/
theorem getOwnedCollection_ok {s : Store} {cid uid : String} {c : Collection}
    (h : getOwnedCollection s cid uid = .ok c) :
    c ∈ s.promptCollections ∧ c.id = cid ∧ c.userId = uid := by
  unfold getOwnedCollection at h
  cases hf : s.promptCollections.find? (fun x => x.id == cid && x.userId == uid) with
  | none => rw [hf] at h; cases h
  | some c1 =>
    rw [hf] at h
    injection h with h1
    subst h1
    have hp := List.find?_some hf
    simp only [Bool.and_eq_true, beq_iff_eq] at hp
    exact ⟨List.mem_of_find?_eq_some hf, hp.1, hp.2⟩

/-- Inversion of a successful getOwnedTemplate: the returned row is in the
table, has the requested id, and is owned by the caller. -/
theorem getOwnedTemplate_ok {s : Store} {tid uid : String} {t : Template}
    (h : getOwnedTemplate s tid uid = .ok t) :
    t ∈ s.promptTemplates ∧ t.id = tid ∧ t.userId = uid := by
  unfold getOwnedTemplate at h
  split at h
  · cases h
  next t1 heq =>
    split at h
    · cases h
    · injection h with h1
      subst h1
      have hp := List.find?_some heq
      simp only [beq_iff_eq] at hp
      have hu : t1.userId = uid := by
        rename_i hcond
        simp only [bne_iff_ne, ne_eq, not_not] at hcond
        exact hcond
      exact ⟨List.mem_of_find?_eq_some heq, hp, hu⟩

/-! Claim theorems. -/

/-- C1: resolving a Template by an id that no row has yields NOT_FOUND;
resolving one whose (primary-key unique) id exists but whose owner differs
from the caller yields FORBIDDEN; resolving a Collection yields NOT_FOUND in
both of those cases and can never yield FORBIDDEN — for every store, id and
caller. -/
theorem claim_C1 (s : Store) (eid uid : String) :
    ((∀ t ∈ s.promptTemplates, t.id ≠ eid) →
      getOwnedTemplate s eid uid = .error .NOT_FOUND) ∧
    (∀ t : Template, t ∈ s.promptTemplates →
      (s.promptTemplates.map (fun x => x.id)).Nodup →
      t.id = eid → t.userId ≠ uid →
      getOwnedTemplate s eid uid = .error .FORBIDDEN) ∧
    ((∀ c ∈ s.promptCollections, ¬ (c.id = eid ∧ c.userId = uid)) →
      getOwnedCollection s eid uid = .error .NOT_FOUND) ∧
    (∀ e : ErrCode, getOwnedCollection s eid uid = .error e →
      e = .NOT_FOUND) := by
  refine ⟨?_, ?_, ?_, ?_⟩
  · intro h
    unfold getOwnedTemplate
    have hf : s.promptTemplates.find? (fun t => t.id == eid) = none :=
      List.find?_eq_none.mpr (by intro x hx; simpa using h x hx)
    rw [hf]
  · intro t hmem hnd ht hu
    unfold getOwnedTemplate
    have hf : s.promptTemplates.find? (fun x => x.id == eid) = some t :=
      find_key_eq (fun x => x.id) hnd hmem ht
    rw [hf]
    simp [hu]
  · intro h
    unfold getOwnedCollection
    have hf : s.promptCollections.find?
        (fun c => c.id == eid && c.userId == uid) = none :=
      List.find?_eq_none.mpr (by intro x hx; simpa using h x hx)
    rw [hf]
  · intro e he
    unfold getOwnedCollection at he
    split at he
    · exact (Except.error.inj he).symm
    · cases he

/-- C1 witness: on a one-row store, a foreign caller gets FORBIDDEN for the
existing template, NOT_FOUND for a missing template id, and NOT_FOUND for
the existing collection. -/
theorem claim_C1_witness :
    getOwnedTemplate sampleStore "zz" "bob" = .error .NOT_FOUND ∧
    getOwnedTemplate sampleStore "t1" "bob" = .error .FORBIDDEN ∧
    getOwnedCollection sampleStore "c1" "bob" = .error .NOT_FOUND ∧
    ErrCode.NOT_FOUND = ErrCode.NOT_FOUND := by
  refine ⟨?_, ?_, ?_, ?_⟩
  · exact (claim_C1 sampleStore "zz" "bob").1 (by decide)
  · exact (claim_C1 sampleStore "t1" "bob").2.1 sampleTemplate (by decide)
      (by decide) (by decide) (by decide)
  · exact (claim_C1 sampleStore "c1" "bob").2.2.1 (by decide)
  · exact (claim_C1 sampleStore "c1" "bob").2.2.2 .NOT_FOUND
      ((claim_C1 sampleStore "c1" "bob").2.2.1 (by decide))

/-- C2: each of the three partial-update actions, given an input with none
of its optional updatable fields present, fails VALIDATION with the store
unchanged and zero SQL statements issued — for every caller (even an
unauthenticated one, since input validation precedes requireUser) and every
store. -/
theorem claim_C2 (user : Option String) (s : Store) (now : Nat)
    (i1 : UpdateCollectionInput) (i2 : UpdateTemplateInput)
    (i3 : UpdateVariableInput) :
    (i1.name = none → i1.description = none → i1.icon = none →
      i1.isDefault = none →
      updateCollection user i1 now s = .err .VALIDATION s 0) ∧
    (i2.collectionId = none → i2.name = none → i2.description = none →
      i2.modelHint = none → i2.promptBody = none → i2.tags = none →
      i2.isFavorite = none →
      updateTemplate user i2 now s = .err .VALIDATION s 0) ∧
    (i3.name = none → i3.label = none → i3.description = none →
      i3.inputType = none → i3.defaultValue = none → i3.optionsJson = none →
      i3.orderIndex = none →
      updatePromptVariable user i3 s = .err .VALIDATION s 0) := by
  refine ⟨?_, ?_, ?_⟩
  · intro h1 h2 h3 h4
    have hv : i1.valid = false := by
      simp [UpdateCollectionInput.valid, h1, h2, h3, h4]
    simp [updateCollection, hv]
  · intro h1 h2 h3 h4 h5 h6 h7
    have hv : i2.valid = false := by
      simp [UpdateTemplateInput.valid, h1, h2, h3, h4, h5, h6, h7]
    simp [updateTemplate, hv]
  · intro h1 h2 h3 h4 h5 h6 h7
    have hv : i3.valid = false := by
      simp [UpdateVariableInput.valid, h1, h2, h3, h4, h5, h6, h7]
    simp [updatePromptVariable, hv]

/-- C2 witness: the three updates with only the mandatory ids fail
VALIDATION on the sample store without touching it. -/
theorem claim_C2_witness :
    updateCollection (some "alice")
      { id := "c1", name := none, description := none, icon := none,
        isDefault := none } 7 sampleStore = .err .VALIDATION sampleStore 0 ∧
    updateTemplate (some "alice")
      { id := "t1", collectionId := none, name := none, description := none,
        modelHint := none, promptBody := none, tags := none,
        isFavorite := none } 7 sampleStore = .err .VALIDATION sampleStore 0 ∧
    updatePromptVariable (some "alice")
      { id := "v1", templateId := "t1", name := none, label := none,
        description := none, inputType := none, defaultValue := none,
        optionsJson := none, orderIndex := none } sampleStore =
      .err .VALIDATION sampleStore 0 := by
  have h := claim_C2 (some "alice") sampleStore 7
    { id := "c1", name := none, description := none, icon := none,
      isDefault := none }
    { id := "t1", collectionId := none, name := none, description := none,
      modelHint := none, promptBody := none, tags := none, isFavorite := none }
    { id := "v1", templateId := "t1", name := none, label := none,
      description := none, inputType := none, defaultValue := none,
      optionsJson := none, orderIndex := none }
  exact ⟨h.1 rfl rfl rfl rfl, h.2.1 rfl rfl rfl rfl rfl rfl rfl,
    h.2.2 rfl rfl rfl rfl rfl rfl rfl⟩

/-- C6: every template row produced by a successful createTemplate has
isSystem = false, and it is the single row appended — so this interface
cannot create a template with isSystem true. -/
theorem claim_C6 (user : Option String) (inp : CreateTemplateInput)
    (newId : String) (now : Nat) (s : Store) (t : Template) (s' : Store)
    (q : Nat) (h : createTemplate user inp newId now s = .ok t s' q) :
    t.isSystem = false ∧ s'.promptTemplates = s.promptTemplates ++ [t] := by
  simp only [createTemplate] at h
  split at h
  · cases h
  · split at h
    · cases h
    · split at h
      · cases h
      · injection h with h1 h2 h3
        subst h1
        subst h2
        exact ⟨rfl, rfl⟩

/-- C6 witness: a concrete successful createTemplate run. -/
theorem claim_C6_witness :
    Template.isSystem
      { id := "t2", collectionId := none, userId := "alice", name := "T",
        description := none, modelHint := none, promptBody := "B",
        tags := none, isFavorite := false, isSystem := false,
        createdAt := 3, updatedAt := 3 } = false ∧
    Store.promptTemplates
      { sampleStore with promptTemplates := sampleStore.promptTemplates ++
        [{ id := "t2", collectionId := none, userId := "alice", name := "T",
           description := none, modelHint := none, promptBody := "B",
           tags := none, isFavorite := false, isSystem := false,
           createdAt := 3, updatedAt := 3 }] } =
      sampleStore.promptTemplates ++
        [{ id := "t2", collectionId := none, userId := "alice", name := "T",
           description := none, modelHint := none, promptBody := "B",
           tags := none, isFavorite := false, isSystem := false,
           createdAt := 3, updatedAt := 3 }] :=
  claim_C6 (some "alice")
    { collectionId := none, name := "T", description := none,
      modelHint := none, promptBody := "B", tags := none, isFavorite := none }
    "t2" 3 sampleStore _ _ _ rfl

/-- C7: listTemplates returns exactly the templates whose userId is the
caller's; when favoritesOnly is true the items are additionally restricted
to isFavorite rows, and when it is absent or false no favorite filter
applies; the returned total is the number of returned items. -/
theorem claim_C7 (s : Store) (uid : String) (inp : Option Bool) :
    ∃ items : List Template,
      listTemplates (some uid) inp s = .ok (items, items.length) s 1 ∧
      ∀ t : Template, t ∈ items ↔
        (t ∈ s.promptTemplates ∧ t.userId = uid ∧
          (inp.getD false = true → t.isFavorite = true)) := by
  refine ⟨s.promptTemplates.filter
    (fun t => t.userId == uid && (!(inp.getD false) || t.isFavorite == true)),
    rfl, ?_⟩
  intro t
  have hbool : ∀ a b : Bool, (!a || b == true) = true ↔ (a = true → b = true) := by
    decide
  simp [List.mem_filter, hbool, and_assoc]
  intro _ _
  cases hgd : inp.getD false <;> simp

/-- C8: after a successful createCollection by user u, listCollections for u
includes the created row, every listed row is owned by u, and total is the
number of items. -/
theorem claim_C8 (u : String) (inp : CreateCollectionInput) (newId : String)
    (now : Nat) (s : Store) (c : Collection) (s' : Store) (q : Nat)
    (h : createCollection (some u) inp newId now s = .ok c s' q) :
    ∃ items : List Collection,
      listCollections (some u) s' = .ok (items, items.length) s' 1 ∧
      c ∈ items ∧ ∀ x ∈ items, x.userId = u := by
  simp only [createCollection, requireUser] at h
  split at h
  · cases h
  · injection h with h1 h2 h3
    subst h1
    subst h2
    refine ⟨_, rfl, ?_, ?_⟩
    · simp [listCollections, requireUser, List.mem_filter]
    · intro x hx
      simpa using (List.mem_filter.mp hx).2

/-- C8 witness: a concrete create-then-list round trip for user alice. -/
theorem claim_C8_witness :
    ∃ items : List Collection,
      listCollections (some "alice")
        { sampleStore with promptCollections := sampleStore.promptCollections ++
          [{ id := "c2", userId := "alice", name := "N", description := none,
             icon := none, isDefault := false, createdAt := 5, updatedAt := 5 }] } =
        .ok (items, items.length)
        { sampleStore with promptCollections := sampleStore.promptCollections ++
          [{ id := "c2", userId := "alice", name := "N", description := none,
             icon := none, isDefault := false, createdAt := 5, updatedAt := 5 }] } 1 ∧
      ({ id := "c2", userId := "alice", name := "N", description := none,
         icon := none, isDefault := false, createdAt := 5,
         updatedAt := 5 } : Collection) ∈ items ∧
      ∀ x ∈ items, x.userId = "alice" :=
  claim_C8 "alice"
    { name := "N", description := none, icon := none, isDefault := none }
    "c2" 5 sampleStore _ _ _ rfl

/-- C5: a successful updateCollection (ids are primary-key unique) changes
only the provided fields on the target row: each absent optional field keeps
its previous value (it is never nulled), updatedAt becomes the update time,
id, userId and createdAt are untouched, and the updated row is returned and
stored. -/
theorem claim_C5 (s : Store) (uid : String) (inp : UpdateCollectionInput)
    (now : Nat) (ret : Option Collection) (s' : Store) (q : Nat)
    (hnd : (s.promptCollections.map (fun x => x.id)).Nodup)
    (h : updateCollection (some uid) inp now s = .ok ret s' q) :
    ∃ c c' : Collection, c ∈ s.promptCollections ∧ c.id = inp.id ∧
      ret = some c' ∧ c' ∈ s'.promptCollections ∧
      c'.id = c.id ∧ c'.userId = c.userId ∧ c'.createdAt = c.createdAt ∧
      c'.updatedAt = now ∧
      c'.name = (match inp.name with | some n => n | none => c.name) ∧
      c'.description =
        (match inp.description with | some d => some d | none => c.description) ∧
      c'.icon = (match inp.icon with | some i => some i | none => c.icon) ∧
      c'.isDefault =
        (match inp.isDefault with | some b => b | none => c.isDefault) := by
  simp only [updateCollection, requireUser] at h
  split at h
  · cases h
  · cases hg : getOwnedCollection s inp.id uid with
    | error e => rw [hg] at h; cases h
    | ok c0 =>
      rw [hg] at h
      injection h with h1 h2 h3
      obtain ⟨hc0mem, hc0id, hc0uid⟩ := getOwnedCollection_ok hg
      have hkey : ∀ a : Collection,
          (if a.id == inp.id then applyCollectionSet inp now a else a).id = a.id := by
        intro a
        by_cases hh : (a.id == inp.id) = true <;> simp [hh, applyCollectionSet]
      have hnd2 : ((s.promptCollections.map
          (fun c => if c.id == inp.id then applyCollectionSet inp now c else c)).map
          (fun x => x.id)).Nodup := by
        rw [map_map_key (fun x => x.id)
          (fun c => if c.id == inp.id then applyCollectionSet inp now c else c) hkey]
        exact hnd
      have hmem2 : applyCollectionSet inp now c0 ∈ s.promptCollections.map
          (fun c => if c.id == inp.id then applyCollectionSet inp now c else c) := by
        refine List.mem_map.mpr ⟨c0, hc0mem, ?_⟩
        simp [hc0id]
      have hfind : (s.promptCollections.map
          (fun c => if c.id == inp.id then applyCollectionSet inp now c else c)).find?
          (fun c => c.id == inp.id) = some (applyCollectionSet inp now c0) :=
        find_key_eq (fun x => x.id) hnd2 hmem2 hc0id
      rw [hfind] at h1
      refine ⟨c0, applyCollectionSet inp now c0, hc0mem, hc0id, h1.symm, ?_,
        rfl, rfl, rfl, rfl, rfl, rfl, rfl, rfl⟩
      rw [← h2]
      exact hmem2

/-- C5 witness: renaming the sample collection at time 9 keeps every unset
field and returns the updated row. -/
theorem claim_C5_witness :
    ∃ c c' : Collection, c ∈ sampleStore.promptCollections ∧ c.id = "c1" ∧
      (some c5row : Option Collection) = some c' ∧
      c' ∈ ({ sampleStore with promptCollections := [c5row] } : Store).promptCollections ∧
      c'.id = c.id ∧ c'.userId = c.userId ∧ c'.createdAt = c.createdAt ∧
      c'.updatedAt = 9 ∧
      c'.name = (match (some "Renamed" : Option String) with
        | some n => n | none => c.name) ∧
      c'.description = (match (none : Option String) with
        | some d => some d | none => c.description) ∧
      c'.icon = (match (none : Option String) with
        | some i => some i | none => c.icon) ∧
      c'.isDefault = (match (none : Option Bool) with
        | some b => b | none => c.isDefault) :=
  claim_C5 sampleStore "alice"
    { id := "c1", name := some "Renamed", description := none, icon := none,
      isDefault := none }
    9 (some c5row) { sampleStore with promptCollections := [c5row] } 2
    (by decide) rfl

/-- C9: a successful updatePromptVariable (ids are primary-key unique) never
changes the target row's id, templateId or createdAt — the set-clause cannot
contain them — so a variable cannot be re-parented through this operation. -/
theorem claim_C9 (s : Store) (uid : String) (inp : UpdateVariableInput)
    (ret : Option Variable) (s' : Store) (q : Nat)
    (hnd : (s.promptVariables.map (fun x => x.id)).Nodup)
    (h : updatePromptVariable (some uid) inp s = .ok ret s' q) :
    ∃ v v' : Variable, v ∈ s.promptVariables ∧ v.id = inp.id ∧
      v.templateId = inp.templateId ∧ ret = some v' ∧
      v'.id = v.id ∧ v'.templateId = v.templateId ∧
      v'.createdAt = v.createdAt := by
  simp only [updatePromptVariable, requireUser] at h
  split at h
  · cases h
  · cases hgt : getOwnedTemplate s inp.templateId uid with
    | error e => rw [hgt] at h; cases h
    | ok t0 =>
      rw [hgt] at h
      cases hfe : s.promptVariables.find?
          (fun v => v.id == inp.id && v.templateId == inp.templateId) with
      | none => rw [hfe] at h; cases h
      | some v0 =>
        rw [hfe] at h
        injection h with h1 h2 h3
        have hp := List.find?_some hfe
        simp only [Bool.and_eq_true, beq_iff_eq] at hp
        have hv0mem := List.mem_of_find?_eq_some hfe
        have hkey : ∀ a : Variable,
            (if a.id == inp.id then applyVariableSet inp a else a).id = a.id := by
          intro a
          by_cases hh : (a.id == inp.id) = true <;> simp [hh, applyVariableSet]
        have hnd2 : ((s.promptVariables.map
            (fun v => if v.id == inp.id then applyVariableSet inp v else v)).map
            (fun x => x.id)).Nodup := by
          rw [map_map_key (fun x => x.id)
            (fun v => if v.id == inp.id then applyVariableSet inp v else v) hkey]
          exact hnd
        have hmem2 : applyVariableSet inp v0 ∈ s.promptVariables.map
            (fun v => if v.id == inp.id then applyVariableSet inp v else v) := by
          refine List.mem_map.mpr ⟨v0, hv0mem, ?_⟩
          simp [hp.1]
        have hfind : (s.promptVariables.map
            (fun v => if v.id == inp.id then applyVariableSet inp v else v)).find?
            (fun v => v.id == inp.id) = some (applyVariableSet inp v0) :=
          find_key_eq (fun x => x.id) hnd2 hmem2 hp.1
        rw [hfind] at h1
        exact ⟨v0, applyVariableSet inp v0, hv0mem, hp.1, hp.2, h1.symm,
          rfl, rfl, rfl⟩

/-- C9 witness: renaming the sample variable preserves id, templateId and
createdAt. -/
theorem claim_C9_witness :
    ∃ v v' : Variable, v ∈ sampleStore.promptVariables ∧ v.id = "v1" ∧
      v.templateId = "t1" ∧ (some c9row : Option Variable) = some v' ∧
      v'.id = v.id ∧ v'.templateId = v.templateId ∧
      v'.createdAt = v.createdAt :=
  claim_C9 sampleStore "alice"
    { id := "v1", templateId := "t1", name := some "topic2", label := none,
      description := none, inputType := none, defaultValue := none,
      optionsJson := none, orderIndex := none }
    (some c9row) { sampleStore with promptVariables := [c9row] } 3
    (by decide) rfl

/-- C4: deletePromptVariable resolves ownership of the given templateId
first (an ownership failure propagates after the single ownership select,
before any delete); with ownership resolved it deletes exactly the rows
matching both id and templateId — if none matches it fails NOT_FOUND with
the store unchanged (in particular when the supplied templateId is not the
variable's actual parent), and on success the surviving rows are exactly
those not matching (id AND templateId). -/
theorem claim_C4 (s : Store) (uid : String) (inp : DeleteVariableInput)
    (hv : inp.valid = true) :
    (∀ e : ErrCode, getOwnedTemplate s inp.templateId uid = .error e →
      deletePromptVariable (some uid) inp s = .err e s 1) ∧
    (∀ tem : Template, getOwnedTemplate s inp.templateId uid = .ok tem →
      (∀ v ∈ s.promptVariables,
        ¬ (v.id = inp.id ∧ v.templateId = inp.templateId)) →
      deletePromptVariable (some uid) inp s = .err .NOT_FOUND s 2) ∧
    (∀ tem : Template, getOwnedTemplate s inp.templateId uid = .ok tem →
      (∃ v ∈ s.promptVariables,
        v.id = inp.id ∧ v.templateId = inp.templateId) →
      ∃ s' : Store, deletePromptVariable (some uid) inp s = .ok () s' 2 ∧
        ∀ v : Variable, v ∈ s'.promptVariables ↔
          (v ∈ s.promptVariables ∧
            ¬ (v.id = inp.id ∧ v.templateId = inp.templateId))) := by
  refine ⟨?_, ?_, ?_⟩
  · intro e he
    simp [deletePromptVariable, requireUser, hv, he]
  · intro tem htem hnone
    have h1 : s.promptVariables.filter
        (fun v => v.id == inp.id && v.templateId == inp.templateId) = [] := by
      rw [List.filter_eq_nil_iff]
      intro v hvm
      simpa using hnone v hvm
    have h2 : s.promptVariables.filter
        (fun v => !(v.id == inp.id) || !(v.templateId == inp.templateId)) =
        s.promptVariables := by
      rw [List.filter_eq_self]
      intro v hvm
      have hx := hnone v hvm
      by_cases h1x : v.id = inp.id
      · have h2x : ¬ v.templateId = inp.templateId := fun ht => hx ⟨h1x, ht⟩
        simp [h1x, h2x]
      · simp [h1x]
    simp [deletePromptVariable, requireUser, hv, htem, h1, h2]
  · intro tem htem hex
    obtain ⟨v0, hv0m, hv0id, hv0tid⟩ := hex
    have hvfilter : v0 ∈ s.promptVariables.filter
        (fun x => x.id == inp.id && x.templateId == inp.templateId) :=
      List.mem_filter.mpr ⟨hv0m, by simp [hv0id, hv0tid]⟩
    have hlen : (s.promptVariables.filter
        (fun x => x.id == inp.id && x.templateId == inp.templateId)).length ≠ 0 := by
      intro h0
      rw [List.length_eq_zero] at h0
      rw [h0] at hvfilter
      cases hvfilter
    refine ⟨Store.mk s.promptCollections s.promptTemplates
      (s.promptVariables.filter
        (fun x => !(x.id == inp.id && x.templateId == inp.templateId))), ?_, ?_⟩
    · simp [deletePromptVariable, requireUser, hv, htem, hlen]
    · intro v
      have hb : ∀ a b : Bool, (!(a && b)) = true ↔ ¬ (a = true ∧ b = true) := by
        decide
      simp [List.mem_filter, hb]
      intro _
      tauto

/-- C4 witness: a foreign caller's ownership failure propagates; a
non-matching (id, templateId) pair fails NOT_FOUND leaving the store
unchanged; a matching pair deletes exactly that row. -/
theorem claim_C4_witness :
    deletePromptVariable (some "bob")
      { id := "v1", templateId := "t1" } sampleStore =
      .err .FORBIDDEN sampleStore 1 ∧
    deletePromptVariable (some "alice")
      { id := "v9", templateId := "t1" } sampleStore =
      .err .NOT_FOUND sampleStore 2 ∧
    ∃ s' : Store, deletePromptVariable (some "alice")
      { id := "v1", templateId := "t1" } sampleStore = .ok () s' 2 ∧
      ∀ v : Variable, v ∈ s'.promptVariables ↔
        (v ∈ sampleStore.promptVariables ∧
          ¬ (v.id = "v1" ∧ v.templateId = "t1")) := by
  refine ⟨?_, ?_, ?_⟩
  · exact (claim_C4 sampleStore "bob" { id := "v1", templateId := "t1" }
      (by decide)).1 .FORBIDDEN rfl
  · exact (claim_C4 sampleStore "alice" { id := "v9", templateId := "t1" }
      (by decide)).2.1 sampleTemplate rfl (by decide)
  · exact (claim_C4 sampleStore "alice" { id := "v1", templateId := "t1" }
      (by decide)).2.2 sampleTemplate rfl
      ⟨sampleVariable, by decide, by decide, by decide⟩

/-- C3 counterexample: with collectionId given as the empty string (which
zod accepts, but which is falsy in JavaScript), createTemplate skips the
owned-collection check and inserts a row with collectionId set to the empty
string — it does not fail NOT_FOUND even though no collection with that id
exists — so the claim as stated fails at this input. -/
theorem claim_C3_counterexample :
    c3badInput.collectionId = some "" ∧
    getOwnedCollection emptyStore "" "alice" = .error .NOT_FOUND ∧
    createTemplate (some "alice") c3badInput "t9" 0 emptyStore =
      .ok { id := "t9", collectionId := some "", userId := "alice",
            name := "n", description := none, modelHint := none,
            promptBody := "p", tags := none, isFavorite := false,
            isSystem := false, createdAt := 0, updatedAt := 0 }
        { emptyStore with promptTemplates :=
          [{ id := "t9", collectionId := some "", userId := "alice",
             name := "n", description := none, modelHint := none,
             promptBody := "p", tags := none, isFavorite := false,
             isSystem := false, createdAt := 0, updatedAt := 0 }] } 1 :=
  ⟨rfl, rfl, rfl⟩

/-- C3 (amended): for every valid createTemplate input whose collectionId is
given and non-empty, the owned-collection lookup runs before the insert: if
it fails, the operation returns NOT_FOUND after that single select and
inserts nothing; if it succeeds, the insert happens as the second statement
and appends exactly the new row. -/
theorem claim_C3_amended_thm (s : Store) (uid newId : String) (now : Nat)
    (inp : CreateTemplateInput) (cid : String)
    (hc : inp.collectionId = some cid) (hne : cid ≠ "") :
    (inp.valid = true → getOwnedCollection s cid uid = .error .NOT_FOUND →
      createTemplate (some uid) inp newId now s = .err .NOT_FOUND s 1) ∧
    (inp.valid = true → ∀ c : Collection,
      getOwnedCollection s cid uid = .ok c →
      ∃ t : Template, createTemplate (some uid) inp newId now s =
        .ok t { s with promptTemplates := s.promptTemplates ++ [t] } 2) := by
  have hb : (cid != "") = true := by simpa using hne
  constructor
  · intro hv hfail
    simp [createTemplate, requireUser, Except.map, hv, hc, hb, hfail]
  · intro hv c hok
    refine ⟨Template.mk newId inp.collectionId uid inp.name inp.description
      inp.modelHint inp.promptBody inp.tags (inp.isFavorite.getD false)
      false now now, ?_⟩
    simp [createTemplate, requireUser, Except.map, hv, hc, hb, hok]

/-- C3 witness: looking up collection c1 as bob fails so bob's create is
rejected with no insert; as alice the lookup succeeds and the insert runs as
the second statement. -/
theorem claim_C3_witness :
    createTemplate (some "bob") c3okInput "t7" 4 sampleStore =
      .err .NOT_FOUND sampleStore 1 ∧
    ∃ t : Template, createTemplate (some "alice") c3okInput "t7" 4 sampleStore =
      .ok t { sampleStore with promptTemplates :=
        sampleStore.promptTemplates ++ [t] } 2 := by
  constructor
  · exact (claim_C3_amended_thm sampleStore "bob" "t7" 4 c3okInput "c1" rfl
      (by decide)).1 (by decide) rfl
  · exact (claim_C3_amended_thm sampleStore "alice" "t7" 4 c3okInput "c1" rfl
      (by decide)).2 (by decide) sampleCollection rfl

/-- C10: in updateTemplate's validated input a present collectionId is
always a string (zod excludes null), so the guard's non-null branch is taken
whenever it is present: the owned-collection check runs before anything is
written (its NOT_FOUND aborts the call after the two selects with the store
unchanged, and any success with a present collectionId implies the check
passed), and a successful update can never turn the target row's
collectionId from set back to null. -/
theorem claim_C10 (s : Store) (uid : String) (now : Nat) :
    (∀ (inp : UpdateTemplateInput) (cid : String) (t0 : Template),
      inp.collectionId = some cid → inp.valid = true →
      getOwnedTemplate s inp.id uid = .ok t0 →
      getOwnedCollection s cid uid = .error .NOT_FOUND →
      updateTemplate (some uid) inp now s = .err .NOT_FOUND s 2) ∧
    (∀ (inp : UpdateTemplateInput) (cid : String) (ret : Option Template)
      (s' : Store) (q : Nat),
      inp.collectionId = some cid →
      updateTemplate (some uid) inp now s = .ok ret s' q →
      ∃ c : Collection, getOwnedCollection s cid uid = .ok c) ∧
    (∀ (inp : UpdateTemplateInput) (ret : Option Template) (s' : Store)
      (q : Nat),
      (s.promptTemplates.map (fun x => x.id)).Nodup →
      updateTemplate (some uid) inp now s = .ok ret s' q →
      ∃ t t' : Template, t ∈ s.promptTemplates ∧ t.id = inp.id ∧
        ret = some t' ∧
        (t'.collectionId = none →
          t.collectionId = none ∧ inp.collectionId = none)) := by
  refine ⟨?_, ?_, ?_⟩
  · intro inp cid t0 hc hv hgt hfail
    simp [updateTemplate, requireUser, Except.map, hv, hc, hgt, hfail]
  · intro inp cid ret s' q hc h
    simp only [updateTemplate, requireUser, hc] at h
    split at h
    · cases h
    · cases hgt : getOwnedTemplate s inp.id uid with
      | error e => rw [hgt] at h; cases h
      | ok t0 =>
        rw [hgt] at h
        cases hg : getOwnedCollection s cid uid with
        | error e => rw [hg] at h; cases h
        | ok c => exact ⟨c, rfl⟩
  · intro inp ret s' q hnd h
    simp only [updateTemplate, requireUser] at h
    split at h
    · cases h
    · cases hgt : getOwnedTemplate s inp.id uid with
      | error e => rw [hgt] at h; cases h
      | ok t0 =>
        rw [hgt] at h
        obtain ⟨ht0mem, ht0id, ht0uid⟩ := getOwnedTemplate_ok hgt
        have hkey : ∀ a : Template,
            (if a.id == inp.id then applyTemplateSet inp now a else a).id = a.id := by
          intro a
          by_cases hh : (a.id == inp.id) = true <;> simp [hh, applyTemplateSet]
        have hnd2 : ((s.promptTemplates.map
            (fun t => if t.id == inp.id then applyTemplateSet inp now t else t)).map
            (fun x => x.id)).Nodup := by
          rw [map_map_key (fun x => x.id)
            (fun t => if t.id == inp.id then applyTemplateSet inp now t else t) hkey]
          exact hnd
        have hmem2 : applyTemplateSet inp now t0 ∈ s.promptTemplates.map
            (fun t => if t.id == inp.id then applyTemplateSet inp now t else t) := by
          refine List.mem_map.mpr ⟨t0, ht0mem, ?_⟩
          simp [ht0id]
        have hfind : (s.promptTemplates.map
            (fun t => if t.id == inp.id then applyTemplateSet inp now t else t)).find?
            (fun t => t.id == inp.id) = some (applyTemplateSet inp now t0) :=
          find_key_eq (fun x => x.id) hnd2 hmem2 ht0id
        split at h
        · cases h
        · split at h
          · cases h
          · injection h with h1 h2 h3
            rw [hfind] at h1
            refine ⟨t0, applyTemplateSet inp now t0, ht0mem, ht0id,
              h1.symm, ?_⟩
            intro hnone
            cases hci : inp.collectionId with
            | some cid => simp [applyTemplateSet, hci] at hnone
            | none =>
              simp only [applyTemplateSet, hci] at hnone
              exact ⟨hnone, rfl⟩

/-- C10 witness: pointing the sample template at a nonexistent collection
aborts with NOT_FOUND after the two selects; pointing it at collection c1
succeeds, which entails the owned-collection lookup passed, and the stored
row keeps a non-null collectionId. -/
theorem claim_C10_witness :
    updateTemplate (some "alice") c10failInput 6 sampleStore =
      .err .NOT_FOUND sampleStore 2 ∧
    (∃ c : Collection, getOwnedCollection sampleStore "c1" "alice" = .ok c) ∧
    ∃ t t' : Template, t ∈ sampleStore.promptTemplates ∧
      t.id = c10okInput.id ∧ (some c10row : Option Template) = some t' ∧
      (t'.collectionId = none →
        t.collectionId = none ∧ c10okInput.collectionId = none) := by
  refine ⟨?_, ?_, ?_⟩
  · exact (claim_C10 sampleStore "alice" 6).1 c10failInput "c9" sampleTemplate
      rfl (by decide) rfl rfl
  · exact (claim_C10 sampleStore "alice" 6).2.1 c10okInput "c1" (some c10row)
      c10store 3 rfl rfl
  · exact (claim_C10 sampleStore "alice" 6).2.2 c10okInput (some c10row)
      c10store 3 (by decide) rfl
